import Mathlib

/-!
Verification of the ontobio owlsim2 similarity client
(`ontobio/sim/api/owlsim2.py` and `ontobio/model/similarity.py`).

The remote owlsim2 service, HTTP transport and JSON parsing are external
collaborators: they are modelled as already-parsed response values
(`SimResponse`) and as function parameters (`getNodes`, `idTypeMap`).
Python's `sorted(results, reverse=True, key=...)` is a stable sort; a stable
sort under a total preorder comparator is a unique function of its input, so
it is modelled by `List.insertionSort` with the comparator
"descending score", which is stable in the same sense.
Scores (floats in the JSON) are modelled as integers: every claim concerns
only their ordering. Failures (Python `ValueError`, `KeyError`, `IndexError`)
are modelled with `Except`/`Option`.
-/

namespace Ontobio

/-- `SimAlgorithm` enumeration (`ontobio.vocabulary.similarity`): the five
scoring methods supported by owlsim2 (`OwlSim2Api.matchers`). -/
inductive SimAlgorithm where
  | phenodigm
  | jaccard
  | simGIC
  | resnik
  | symmetricResnik
deriving DecidableEq, Repr

/-- `OwlSim2Api.method2key`: maps each scoring method to the score field of
the owlsim response it reads. -/
def method2key : SimAlgorithm → String
  | .phenodigm => "combinedScore"
  | .jaccard => "simJ"
  | .simGIC => "simGIC"
  | .resnik => "bmaAsymIC"
  | .symmetricResnik => "bmaSymIC"

/-- `Node` (`ontobio/model/similarity.py`): identifier plus optional label. -/
structure Node where
  id : String
  label : Option String
deriving DecidableEq, Repr

/-- `ICNode`: node with information content. -/
structure ICNode where
  id : String
  IC : Int
  label : Option String
deriving DecidableEq, Repr

/-- `PairwiseMatch`: query attribute, matched attribute and their lowest
common subsumer. -/
structure PairwiseMatch where
  query : ICNode
  «match» : ICNode
  lcs : ICNode
deriving DecidableEq, Repr

/-- Rank and significance in `SimMatch` are `Union[int, str]` /
`Union[float, str, None]` in the source: either a number or a string
sentinel such as `"NaN"`. -/
inductive NumOrStr where
  | num (n : Int)
  | str (s : String)
deriving DecidableEq, Repr

/-- `SimMatch`: one ranked candidate of a similarity result. -/
structure SimMatch where
  id : String
  label : String
  rank : NumOrStr
  score : Int
  «type» : String
  taxon : Option Node
  significance : Option NumOrStr
  pairwise_match : List PairwiseMatch
deriving DecidableEq, Repr

/-- `SimQuery`: the normalized query of a similarity result. -/
structure SimQuery where
  ids : List Node
  negated_ids : List Node
  unresolved_ids : List String
  target_ids : List (List Node)
deriving DecidableEq, Repr

/-- `SimResult`: a query paired with its ordered matches. -/
structure SimResult where
  query : SimQuery
  «matches» : List SimMatch
deriving DecidableEq, Repr

/-- One element of the `matches` list inside a raw owlsim result: the `a`,
`b` and `lcs` sub-objects. -/
structure RawPair where
  a : ICNode
  b : ICNode
  lcs : ICNode
deriving DecidableEq, Repr

/-- One raw result dictionary of an owlsim response: the nested `j` node,
one numeric score field per scoring method, the pairwise `matches` list,
and the `rank` key, absent until `_rank_results` sets it. -/
structure OwlResult where
  j : Node
  combinedScore : Int
  simJ : Int
  simGIC : Int
  bmaAsymIC : Int
  bmaSymIC : Int
  «matches» : List RawPair
  rank : Option Nat
deriving DecidableEq, Repr

/-- Dictionary access `result[key]` for the five score keys that
`method2key` can produce. -/
def scoreOf (key : String) (r : OwlResult) : Int :=
  if key = "combinedScore" then r.combinedScore
  else if key = "simJ" then r.simJ
  else if key = "simGIC" then r.simGIC
  else if key = "bmaAsymIC" then r.bmaAsymIC
  else r.bmaSymIC

/-- A parsed owlsim response body, as consumed by
`_simsearch_to_simresult`: `query_IRIs`, `unresolved`, `results`, and for
compare mode `target_IRIs`. -/
structure SimResponse where
  query_IRIs : List String
  unresolved : List String
  results : List OwlResult
  target_IRIs : List String
deriving DecidableEq, Repr

/-- The comparator of `sorted(results, reverse=True, key=lambda k: k[key])`:
`a` may precede `b` exactly when `a`'s score is at least `b`'s. -/
def sortRel (key : String) (a b : OwlResult) : Prop :=
  scoreOf key b ≤ scoreOf key a

instance (key : String) : DecidableRel (sortRel key) :=
  fun a b => inferInstanceAs (Decidable (scoreOf key b ≤ scoreOf key a))

instance (key : String) : IsTotal OwlResult (sortRel key) :=
  ⟨fun a b => le_total (scoreOf key b) (scoreOf key a)⟩

instance (key : String) : IsTrans OwlResult (sortRel key) :=
  ⟨fun _ _ _ hab hbc => le_trans hbc hab⟩

/-- `sorted(results, reverse=True, key=lambda k: k[method2key[method]])`:
stable sort by descending score. -/
def sortResults (key : String) (results : List OwlResult) : List OwlResult :=
  List.insertionSort (sortRel key) results

/-- The ranking loop of `_rank_results`: walks the sorted list carrying the
current rank and the previous score, incrementing the rank exactly when a
strictly lower score is encountered, and writes `result['rank']`. -/
def rankLoop (key : String) (rank : Nat) (previous_score : Int) :
    List OwlResult → List OwlResult
  | [] => []
  | result :: rest =>
    let rank' := if previous_score > scoreOf key result then rank + 1 else rank
    { result with rank := some rank' } ::
      rankLoop key rank' (scoreOf key result) rest

/-- `OwlSim2Api._rank_results`: sorts by descending score, then ranks.
`sorted_results[0]` is read unconditionally before the loop, so an empty
input raises `IndexError`; this is modelled by `none`. -/
def rank_results (results : List OwlResult) (method : SimAlgorithm) :
    Option (List OwlResult) :=
  let key := method2key method
  let sorted_results := sortResults key results
  match sorted_results with
  | [] => none
  | first :: _ => some (rankLoop key 1 (scoreOf key first) sorted_results)

/-- `OwlSim2Api.TAX_TO_NS`: two-level taxon → category → namespace table;
`none` models a `KeyError` on either level. -/
def TAX_TO_NS (taxon : Nat) (category : String) : Option String :=
  if taxon = 10090 then
    if category = "gene" then some "MGI" else none
  else if taxon = 9606 then
    if category = "disease" then some "MONDO"
    else if category = "case" then some "MONARCH"
    else if category = "gene" then some "HGNC"
    else none
  else if taxon = 7227 then
    if category = "gene" then some "FlyBase" else none
  else if taxon = 6239 then
    if category = "gene" then some "WormBase" else none
  else if taxon = 7955 then
    if category = "gene" then some "ZFIN" else none
  else none

/-- The `taxon_category_default` table local to `_get_namespace_filter`. -/
def taxon_category_default (taxon : Nat) : Option String :=
  if taxon = 10090 then some "gene"
  else if taxon = 9606 then some "disease"
  else if taxon = 7227 then some "gene"
  else if taxon = 6239 then some "gene"
  else if taxon = 7955 then some "gene"
  else none

/-- Python's `str.lower()`: lower-case every character (the table keys are
ASCII). -/
def str_lower (s : String) : String := String.mk (s.data.map Char.toLower)

/-- `OwlSim2Api._get_namespace_filter`. Mirrors the source's control flow:
category without taxon raises `ValueError`; taxon without category defaults
the category from `taxon_category_default` and then reads
`TAX_TO_NS[taxon][category.lower()]`; every other combination — both absent
AND both present — falls into the `else` branch, which returns the still-None
`namespace_filter`, so the both-present case never reaches the table lookup. -/
def get_namespace_filter (taxon_filter : Option Nat)
    (category_filter : Option String) : Except String (Option String) :=
  match taxon_filter, category_filter with
  | none, some _ => .error "Must provide taxon filter along with category"
  | some t, none =>
    match taxon_category_default t with
    | none => .error "KeyError: taxon_category_default"
    | some category_filter =>
      match TAX_TO_NS t (str_lower category_filter) with
      | none => .error "KeyError: TAX_TO_NS"
      | some ns => .ok (some ns)
  | _, _ => .ok none

/-- The outbound request of `search_by_attribute_set`: params `a` (the
profile) and `target` (the optional namespace filter). -/
structure SearchRequest where
  a : List String
  target : Option String
deriving DecidableEq, Repr

/-- The pre-network phase of `OwlSim2Api.filtered_search`: the warning
diagnostics it logs (one `logging.warning` when `negated_classes` is
non-empty) and either the `ValueError`/`KeyError` from namespace resolution
or the request that is then sent to the remote service. -/
def filtered_search_request (id_list : List String)
    (negated_classes : List String) (taxon_filter : Option Nat)
    (category_filter : Option String) :
    List String × Except String SearchRequest :=
  let warnings :=
    if negated_classes.length > 0 then
      ["Owlsim2 does not support negation, ignoring neg classes"]
    else []
  match get_namespace_filter taxon_filter category_filter with
  | .error e => (warnings, .error e)
  | .ok namespace_filter =>
    (warnings, .ok { a := id_list, target := namespace_filter })

/-- `OwlSim2Api.NS_TO_TAX`: namespace prefix → taxon node. -/
def NS_TO_TAX (ns : String) : Option Node :=
  if ns = "MGI" then some ⟨"NCBITaxon:10090", some "Mus musculus"⟩
  else if ns = "MONDO" then some ⟨"NCBITaxon:9606", some "Homo sapiens"⟩
  else if ns = "OMIM" then some ⟨"NCBITaxon:9606", some "Homo sapiens"⟩
  else if ns = "MONARCH" then some ⟨"NCBITaxon:9606", some "Homo sapiens"⟩
  else if ns = "HGNC" then some ⟨"NCBITaxon:9606", some "Homo sapiens"⟩
  else if ns = "FlyBase" then some ⟨"NCBITaxon:7227", some "Drosophila melanogaster"⟩
  else if ns = "WormBase" then some ⟨"NCBITaxon:6239", some "Caenorhabditis elegans"⟩
  else if ns = "ZFIN" then some ⟨"NCBITaxon:7955", some "Danio rerio"⟩
  else none

/-- `OwlSim2Api._make_pairwise_matches`: builds a `PairwiseMatch` from the
`a`/`b`/`lcs` sub-objects of each element of `result['matches']`. -/
def make_pairwise_matches (result : OwlResult) : List PairwiseMatch :=
  result.«matches».map fun p => { query := p.a, «match» := p.b, lcs := p.lcs }

/-- `result['j']['id'].split(":")[0]`: the namespace prefix. -/
def nsOfId (id : String) : String :=
  (id.splitOn ":").headD ""

/-- The body of the match-assembly loop of `_simsearch_to_simresult`:
one `SimMatch` per ranked raw result. `idTypeMap` stands for
`get_id_type_map(ids)[id][0]`, an external collaborator. In compare mode the
rank field gets the string sentinel `"NaN"`; significance is always the
string sentinel `"NaN"`. An unmapped namespace yields an empty/absent
taxon (`{}` in the source). -/
def mkSimMatch (idTypeMap : String → String) (method : SimAlgorithm)
    (mode : String) (result : OwlResult) : SimMatch :=
  { id := result.j.id
    label := (result.j.label).getD ""
    rank :=
      if mode = "search" then NumOrStr.num (result.rank.getD 0)
      else NumOrStr.str "NaN"
    score := scoreOf (method2key method) result
    «type» := idTypeMap result.j.id
    taxon := NS_TO_TAX (nsOfId result.j.id)
    significance := some (NumOrStr.str "NaN")
    pairwise_match := make_pairwise_matches result }

/-- `OwlSim2Api._simsearch_to_simresult`: ranks the raw results, assembles
the matches, and pairs them with the normalized query. `getNodes` stands for
the external `get_nodes_from_ids` collaborator. `none` propagates the
failure of `_rank_results` on an empty result list. -/
def simsearch_to_simresult (getNodes : List String → List Node)
    (idTypeMap : String → String) (sim_resp : SimResponse)
    (method : SimAlgorithm) (mode : String) : Option SimResult :=
  let sim_ids := getNodes sim_resp.query_IRIs
  match rank_results sim_resp.results method with
  | none => none
  | some ranked =>
    let «matches» := ranked.map (mkSimMatch idTypeMap method mode)
    let target_ids :=
      if mode = "compare" then [getNodes sim_resp.target_IRIs] else [[]]
    some
      { query :=
          { ids := sim_ids
            negated_ids := []
            unresolved_ids := sim_resp.unresolved
            target_ids := target_ids }
        «matches» := «matches» }

/-- `OwlSim2Api.compare`, after the network call: converts the
`compare_attribute_sets` response with mode `'compare'`. -/
def compare_result (getNodes : List String → List Node)
    (idTypeMap : String → String) (owlsim_results : SimResponse)
    (method : SimAlgorithm) : Option SimResult :=
  simsearch_to_simresult getNodes idTypeMap owlsim_results method "compare"

/-- `OwlSim2Api.filtered_search`, after the network call: converts the
`search_by_attribute_set` response with mode `'search'`. -/
def filtered_search_result (getNodes : List String → List Node)
    (idTypeMap : String → String) (owlsim_results : SimResponse)
    (method : SimAlgorithm) : Option SimResult :=
  simsearch_to_simresult getNodes idTypeMap owlsim_results method "search"


/-! ### Helper definitions for the theorems and their concrete witnesses -/

/-- Forgets the `rank` key of a raw result, leaving every other field
unchanged: used to state which part of a record `_rank_results` may touch. -/
def eraseRank (r : OwlResult) : OwlResult := { r with rank := none }

/-- The relation between consecutive entries of a ranked list: the later
entry's rank is one more than the earlier's exactly when its score is
strictly lower, and equal to it otherwise (dense competition ranking). -/
def rankRel (key : String) (a b : OwlResult) : Prop :=
  b.rank = some (if scoreOf key b < scoreOf key a
    then a.rank.getD 0 + 1 else a.rank.getD 0)

/-- A concrete raw result whose every score field is `s`. -/
def exScored (id : String) (s : Int) : OwlResult :=
  { j := { id := id, label := some id }
    combinedScore := s, simJ := s, simGIC := s, bmaAsymIC := s, bmaSymIC := s
    «matches» := [], rank := none }

/-- `get_nodes_from_ids` stand-in for concrete witnesses. -/
def exGetNodes : List String → List Node :=
  fun ids => ids.map fun i => { id := i, label := none }

/-- `get_id_type_map` stand-in for concrete witnesses. -/
def exIdType : String → String := fun _ => "disease"

/-- A concrete parsed owlsim response with one result. -/
def exResp : SimResponse :=
  { query_IRIs := ["HP:1"]
    unresolved := []
    results := [exScored "MONDO:1" 10]
    target_IRIs := ["MONDO:2"] }

/-- A default `SimMatch`, used only as the `headD` fallback below. -/
def exDefaultMatch : SimMatch :=
  { id := "", label := "", rank := NumOrStr.str "", score := 0, «type» := ""
    taxon := none, significance := none, pairwise_match := [] }

/-- The compare-mode conversion of `exResp`. -/
def exCompareOut : SimResult :=
  (compare_result exGetNodes exIdType exResp SimAlgorithm.phenodigm).getD
    { query := { ids := [], negated_ids := [], unresolved_ids := [],
                 target_ids := [] }, «matches» := [] }

/-- The search-mode conversion of `exResp`. -/
def exSearchOut : SimResult :=
  (filtered_search_result exGetNodes exIdType exResp
      SimAlgorithm.phenodigm).getD
    { query := { ids := [], negated_ids := [], unresolved_ids := [],
                 target_ids := [] }, «matches» := [] }

/-- The ranked results of `exResp`. -/
def exRanked : List OwlResult :=
  (rank_results exResp.results SimAlgorithm.phenodigm).getD []

/-- The single compare-mode match of `exResp`. -/
def exCompareMatch : SimMatch := exCompareOut.«matches».headD exDefaultMatch

open List

/-! ### Helper lemmas about the ranking loop and the stable sort -/

lemma scoreOf_setRank (key : String) (r : OwlResult) (n : Option Nat) :
    scoreOf key { r with rank := n } = scoreOf key r := rfl

lemma rankLoop_map_eraseRank (key : String) (l : List OwlResult) :
    ∀ (rank : Nat) (prev : Int),
      (rankLoop key rank prev l).map eraseRank = l.map eraseRank := by
  induction l with
  | nil => intro rank prev; rfl
  | cons r rs ih =>
    intro rank prev
    simp only [rankLoop, List.map_cons, ih]
    rfl

lemma rankLoop_map_score (key : String) (l : List OwlResult) :
    ∀ (rank : Nat) (prev : Int),
      (rankLoop key rank prev l).map (scoreOf key) = l.map (scoreOf key) := by
  induction l with
  | nil => intro rank prev; rfl
  | cons r rs ih =>
    intro rank prev
    simp only [rankLoop, List.map_cons, ih, scoreOf_setRank]

lemma rankLoop_rank_isSome (key : String) (l : List OwlResult) :
    ∀ (rank : Nat) (prev : Int),
      ∀ r ∈ rankLoop key rank prev l, r.rank.isSome := by
  induction l with
  | nil => intro rank prev r hr; cases hr
  | cons x xs ih =>
    intro rank prev r hr
    simp only [rankLoop, List.mem_cons] at hr
    rcases hr with h | h
    · subst h; rfl
    · exact ih _ _ r h

lemma rankLoop_chain (key : String) (l : List OwlResult) :
    ∀ (rank : Nat) (prev : Int),
      List.Chain' (rankRel key) (rankLoop key rank prev l) := by
  induction l with
  | nil => intro rank prev; simp [rankLoop]
  | cons r rs ih =>
    intro rank prev
    cases rs with
    | nil => simp [rankLoop]
    | cons s ss =>
      refine List.Chain'.cons ?_ (ih _ _)
      show rankRel key _ _
      simp only [rankRel, rankLoop, scoreOf_setRank, Option.getD_some,
        gt_iff_lt]

lemma sortResults_ne_nil (key : String) (results : List OwlResult)
    (h : results ≠ []) : sortResults key results ≠ [] := by
  intro hc
  apply h
  have := List.perm_insertionSort (sortRel key) results
  rw [sortResults] at hc
  rw [hc] at this
  exact (List.Perm.nil_eq this).symm

/-! ### The claims -/

/-- C1: for every non-empty result list and every supported scoring method,
`_rank_results` returns the list sorted by descending score under the
method's response key, the first rank is 1, and along consecutive entries
the rank stays equal on a tied score and increases by exactly one on a
strictly lower score (dense competition ranking, no rank skipped); in
particular scores `[10, 10, 7]` yield ranks `[1, 1, 2]` in that order. -/
theorem rank_results_sorted_dense (results : List OwlResult)
    (method : SimAlgorithm) (h : results ≠ []) :
    ∃ out, rank_results results method = some out ∧
      (out.map (scoreOf (method2key method))).Sorted (· ≥ ·) ∧
      out.head?.map OwlResult.rank = some (some 1) ∧
      List.Chain' (rankRel (method2key method)) out ∧
      (rank_results [exScored "A" 10, exScored "B" 10, exScored "C" 7]
        method).map (fun l => l.map fun r =>
          (scoreOf (method2key method) r, r.rank.getD 0)) =
        some [(10, 1), (10, 1), (7, 2)] := by
  set key := method2key method with hkey
  obtain ⟨first, rest, hsorted⟩ :=
    List.exists_cons_of_ne_nil (sortResults_ne_nil key results h)
  refine ⟨rankLoop key 1 (scoreOf key first) (first :: rest),
    ?_, ?_, ?_, ?_, ?_⟩
  · simp only [rank_results, ← hkey]
    rw [hsorted]
  · rw [rankLoop_map_score]
    have hs : List.Sorted (sortRel key) (first :: rest) := by
      rw [← hsorted]
      exact List.sorted_insertionSort (sortRel key) results
    exact List.Pairwise.map (scoreOf key) (fun a b hab => hab) hs
  · simp [rankLoop, lt_irrefl]
  · exact rankLoop_chain key _ _ _
  · cases method <;> decide

/-- Witness for C1 at the scenario input: scores `[10, 10, 7]` under
phenodigm give ranks `[1, 1, 2]` in score order. -/
theorem rank_results_sorted_dense_witness :
    (rank_results [exScored "A" 10, exScored "B" 10, exScored "C" 7]
      SimAlgorithm.phenodigm).map (fun l => l.map fun r =>
        (scoreOf (method2key SimAlgorithm.phenodigm) r, r.rank.getD 0)) =
      some [(10, 1), (10, 1), (7, 2)] := by
  obtain ⟨out, h1, h2, h3, h4, h5⟩ :=
    rank_results_sorted_dense
      [exScored "A" 10, exScored "B" 10, exScored "C" 7]
      SimAlgorithm.phenodigm (by decide)
  exact h5

/-- C2: the claim says that with taxon and category both supplied and both
in the table, `_get_namespace_filter` returns
`TAX_TO_NS[taxon][category.lower()]`. The code disagrees: the
both-present case falls into the `else` branch and returns the still-None
`namespace_filter`, never reaching the lookup. At taxon 9606 and category
`"disease"` the table holds `"MONDO"`, yet the function returns no filter. -/
theorem get_namespace_filter_both_present_no_lookup :
    TAX_TO_NS 9606 (str_lower "disease") = some "MONDO" ∧
    get_namespace_filter (some 9606) (some "disease") = Except.ok none :=
  ⟨rfl, rfl⟩

/-- C3: the claim says resolving with only a taxon equals resolving with
that taxon plus its default category. The code disagrees at taxon 9606:
taxon alone resolves to `"MONDO"` (the table entry for `(9606, "disease")`,
confirming the scenario half of the claim), but adding the documented
default category `"disease"` explicitly yields no filter, because the
both-present case returns the still-None `namespace_filter`. -/
theorem get_namespace_filter_default_ne_explicit :
    taxon_category_default 9606 = some "disease" ∧
    get_namespace_filter (some 9606) none = Except.ok (some "MONDO") ∧
    TAX_TO_NS 9606 "disease" = some "MONDO" ∧
    get_namespace_filter (some 9606) (some "disease") = Except.ok none :=
  ⟨rfl, rfl, rfl, rfl⟩

/-- C4: for every category value, namespace resolution with the category
supplied and the taxon absent fails with the invalid-filter-combination
`ValueError`, and `filtered_search` at such filters fails the same way in
its pre-network phase, so no request is built. -/
theorem category_without_taxon_rejected (category : String)
    (id_list negated_classes : List String) :
    get_namespace_filter none (some category) =
      Except.error "Must provide taxon filter along with category" ∧
    (filtered_search_request id_list negated_classes none (some category)).2 =
      Except.error "Must provide taxon filter along with category" :=
  ⟨rfl, rfl⟩

/-- Witness for C4 at category `"gene"`. -/
theorem category_without_taxon_rejected_witness :
    get_namespace_filter none (some "gene") =
      Except.error "Must provide taxon filter along with category" ∧
    (filtered_search_request ["HP:1"] [] none (some "gene")).2 =
      Except.error "Must provide taxon filter along with category" :=
  category_without_taxon_rejected "gene" ["HP:1"] []

/-- C5: every match of a successful `compare` result carries the rank
sentinel `"NaN"`, regardless of the underlying scores, while in search mode
the rank fields are exactly the ranks computed by `_rank_results`. -/
theorem compare_rank_sentinel (getNodes : List String → List Node)
    (idTypeMap : String → String) (resp : SimResponse)
    (method : SimAlgorithm) (outC outS : SimResult) (ranked : List OwlResult)
    (hr : rank_results resp.results method = some ranked)
    (hc : compare_result getNodes idTypeMap resp method = some outC)
    (hs : filtered_search_result getNodes idTypeMap resp method = some outS) :
    (∀ m ∈ outC.«matches», m.rank = NumOrStr.str "NaN") ∧
    outS.«matches».map SimMatch.rank =
      ranked.map (fun r => NumOrStr.num (r.rank.getD 0)) := by
  simp only [compare_result, filtered_search_result,
    simsearch_to_simresult, hr, Option.some.injEq] at hc hs
  constructor
  · intro m hm
    rw [← hc] at hm
    simp only [List.mem_map] at hm
    obtain ⟨r, _, rfl⟩ := hm
    rfl
  · rw [← hs]
    simp only [List.map_map]
    rfl

/-- Witness for C5 on the concrete response `exResp`. -/
theorem compare_rank_sentinel_witness :
    exCompareMatch.rank = NumOrStr.str "NaN" ∧
    exSearchOut.«matches».map SimMatch.rank = [NumOrStr.num 1] :=
  ⟨(compare_rank_sentinel exGetNodes exIdType exResp SimAlgorithm.phenodigm
      exCompareOut exSearchOut exRanked rfl rfl rfl).1
      exCompareMatch (by exact List.mem_cons_self _ _),
   ((compare_rank_sentinel exGetNodes exIdType exResp SimAlgorithm.phenodigm
      exCompareOut exSearchOut exRanked rfl rfl rfl).2).trans (by decide)⟩

/-- C6: the warning diagnostic of `filtered_search` (and hence `search`):
no diagnostic when the negated list is empty, exactly one warning when it
is non-empty, the outcome is the same either way (processing continues
without error), and the built request carries only `id_list`, so negated
identifiers are omitted entirely. -/
theorem filtered_search_negation_diagnostics
    (id_list negated_classes : List String) (taxon_filter : Option Nat)
    (category_filter : Option String) :
    (negated_classes = [] →
      (filtered_search_request id_list negated_classes taxon_filter
        category_filter).1 = []) ∧
    (negated_classes ≠ [] →
      (filtered_search_request id_list negated_classes taxon_filter
        category_filter).1 =
        ["Owlsim2 does not support negation, ignoring neg classes"]) ∧
    (filtered_search_request id_list negated_classes taxon_filter
        category_filter).2 =
      (filtered_search_request id_list [] taxon_filter category_filter).2 ∧
    ∀ req, (filtered_search_request id_list negated_classes taxon_filter
        category_filter).2 = Except.ok req → req.a = id_list := by
  refine ⟨?_, ?_, ?_, ?_⟩
  · intro h
    subst h
    simp [filtered_search_request]
    cases get_namespace_filter taxon_filter category_filter <;> simp
  · intro h
    have hlen : negated_classes.length > 0 := List.length_pos.mpr h
    simp only [filtered_search_request, if_pos hlen]
    cases get_namespace_filter taxon_filter category_filter <;> simp
  · simp only [filtered_search_request]
    cases get_namespace_filter taxon_filter category_filter <;> simp
  · intro req hreq
    simp only [filtered_search_request] at hreq
    cases hg : get_namespace_filter taxon_filter category_filter <;>
      rw [hg] at hreq <;> simp at hreq
    rw [← hreq]

/-- Witness for C6: one warning for a non-empty negated list, none for an
empty one, the same outcome either way. -/
theorem filtered_search_negation_diagnostics_witness :
    (filtered_search_request ["HP:1"] ["HP:2"] (some 9606) none).1 =
      ["Owlsim2 does not support negation, ignoring neg classes"] ∧
    (filtered_search_request ["HP:1"] [] (some 9606) none).1 = [] ∧
    (filtered_search_request ["HP:1"] ["HP:2"] (some 9606) none).2 =
      (filtered_search_request ["HP:1"] [] (some 9606) none).2 :=
  ⟨(filtered_search_negation_diagnostics ["HP:1"] ["HP:2"]
      (some 9606) none).2.1 (by decide),
   (filtered_search_negation_diagnostics ["HP:1"] []
      (some 9606) none).1 rfl,
   (filtered_search_negation_diagnostics ["HP:1"] ["HP:2"]
      (some 9606) none).2.2.1⟩

/-- C7: on the empty input list `_rank_results` fails (it reads the first
element of the empty sorted list before the loop), and for every non-empty
input it returns a value, so the failure is unreachable there. -/
theorem rank_results_empty_input_fails (method : SimAlgorithm) :
    rank_results [] method = none ∧
    ∀ results : List OwlResult, results ≠ [] →
      ∃ out, rank_results results method = some out := by
  constructor
  · rfl
  · intro results h
    obtain ⟨first, rest, hsorted⟩ :=
      List.exists_cons_of_ne_nil
        (sortResults_ne_nil (method2key method) results h)
    refine ⟨rankLoop (method2key method) 1
      (scoreOf (method2key method) first) (first :: rest), ?_⟩
    simp only [rank_results]
    rw [hsorted]

/-- Witness for C7: the empty list fails, a one-element list succeeds. -/
theorem rank_results_empty_input_fails_witness :
    rank_results [] SimAlgorithm.phenodigm = none ∧
    (rank_results [exScored "A" 5] SimAlgorithm.phenodigm).isSome = true := by
  obtain ⟨out, hout⟩ :=
    (rank_results_empty_input_fails SimAlgorithm.phenodigm).2
      [exScored "A" 5] (by decide)
  exact ⟨(rank_results_empty_input_fails SimAlgorithm.phenodigm).1,
    by rw [hout]; rfl⟩

/-- C8: two results with equal scores under the chosen method keep their
input order in the output of `_rank_results` (the descending sort is
stable); stated up to the `rank` field, the only field the ranking sets. -/
theorem rank_results_tie_stable (results : List OwlResult)
    (method : SimAlgorithm) (a b : OwlResult) (hsub : [a, b] <+ results)
    (heq : scoreOf (method2key method) a = scoreOf (method2key method) b) :
    ∃ out, rank_results results method = some out ∧
      [eraseRank a, eraseRank b] <+ out.map eraseRank := by
  set key := method2key method with hkey
  have hne : results ≠ [] := by
    intro hc; rw [hc] at hsub; simp at hsub
  obtain ⟨first, rest, hsorted⟩ :=
    List.exists_cons_of_ne_nil (sortResults_ne_nil key results hne)
  refine ⟨rankLoop key 1 (scoreOf key first) (first :: rest), ?_, ?_⟩
  · simp only [rank_results, ← hkey]
    rw [hsorted]
  · rw [rankLoop_map_eraseRank, ← hsorted]
    have hstable : [a, b] <+ sortResults key results :=
      List.pair_sublist_insertionSort (le_of_eq heq.symm) hsub
    simpa using hstable.map eraseRank

/-- Witness for C8: the two tied results of the scenario list stay in
input order in the ranked output. -/
theorem rank_results_tie_stable_witness :
    [eraseRank (exScored "A" 10), eraseRank (exScored "B" 10)].Sublist
      (((rank_results [exScored "A" 10, exScored "B" 10, exScored "C" 7]
        SimAlgorithm.phenodigm).getD []).map eraseRank) := by
  obtain ⟨out, hout, hsub⟩ := rank_results_tie_stable
    [exScored "A" 10, exScored "B" 10, exScored "C" 7]
    SimAlgorithm.phenodigm (exScored "A" 10) (exScored "B" 10)
    (((List.nil_sublist [exScored "C" 7]).cons₂
        (exScored "B" 10)).cons₂ (exScored "A" 10))
    (by decide)
  rw [hout]
  exact hsub

/-- C9: every `SimMatch` assembled by `_simsearch_to_simresult`, in every
mode, has significance equal to the string sentinel `"NaN"`; a numeric
significance is never produced although the field admits one. -/
theorem simmatch_significance_nan (getNodes : List String → List Node)
    (idTypeMap : String → String) (resp : SimResponse)
    (method : SimAlgorithm) (mode : String) (out : SimResult)
    (h : simsearch_to_simresult getNodes idTypeMap resp method mode =
      some out) :
    ∀ m ∈ out.«matches», m.significance = some (NumOrStr.str "NaN") := by
  simp only [simsearch_to_simresult] at h
  cases hrr : rank_results resp.results method with
  | none => rw [hrr] at h; simp at h
  | some ranked =>
    rw [hrr] at h
    simp only [Option.some.injEq] at h
    intro m hm
    rw [← h] at hm
    simp only [List.mem_map] at hm
    obtain ⟨r, _, rfl⟩ := hm
    rfl

/-- Witness for C9 on the concrete response `exResp` in compare mode. -/
theorem simmatch_significance_nan_witness :
    exCompareMatch.significance = some (NumOrStr.str "NaN") :=
  simmatch_significance_nan exGetNodes exIdType exResp
    SimAlgorithm.phenodigm "compare" exCompareOut rfl exCompareMatch
    (by exact List.mem_cons_self _ _)

/-- C10: for every non-empty input and scoring method the output of
`_rank_results` is a permutation of the input up to the `rank` field —
no record dropped or duplicated, every other field unchanged — and every
output record has its rank set. -/
theorem rank_results_permutation (results : List OwlResult)
    (method : SimAlgorithm) (h : results ≠ []) :
    ∃ out, rank_results results method = some out ∧
      out.map eraseRank ~ results.map eraseRank ∧
      ∀ r ∈ out, r.rank.isSome := by
  set key := method2key method with hkey
  obtain ⟨first, rest, hsorted⟩ :=
    List.exists_cons_of_ne_nil (sortResults_ne_nil key results h)
  refine ⟨rankLoop key 1 (scoreOf key first) (first :: rest), ?_, ?_, ?_⟩
  · simp only [rank_results, ← hkey]
    rw [hsorted]
  · rw [rankLoop_map_eraseRank, ← hsorted]
    exact (List.perm_insertionSort (sortRel key) results).map eraseRank
  · exact rankLoop_rank_isSome key _ _ _

/-- Witness for C10 on a concrete two-element list. -/
theorem rank_results_permutation_witness :
    List.Perm
      (((rank_results [exScored "A" 10, exScored "C" 7]
        SimAlgorithm.jaccard).getD []).map eraseRank)
      ([exScored "A" 10, exScored "C" 7].map eraseRank) := by
  obtain ⟨out, hout, hperm, _⟩ := rank_results_permutation
    [exScored "A" 10, exScored "C" 7] SimAlgorithm.jaccard (by decide)
  rw [hout]
  exact hperm

end Ontobio
